import Mathlib

/-!
# Verification of the lapin AMQP client core

Shallow embedding of the sans-I/O connection/channel state machine of the
repository (`async/src/api.rs`, `src/message.rs`).  Rust `HashMap` /
`HashSet` containers are embedded as association lists (whose list order
stands for the map's iteration order) and canonically sorted lists of
delivery tags (`TagSet`).  The helper types and
functions that live in source files not present under `src/`
(`connection.rs`, `queue.rs`, `consumer.rs`, `acker.rs`) are modelled from
the specification; each such definition says so in its doc comment.
The frame sink is modelled from the spec as an outbound frame buffer that
never fails.  Consumer subscriber callbacks are outside the model.
-/

set_option autoImplicit false

deriving instance DecidableEq for Except

namespace Lapin

/-- Association-list lookup: first entry whose key matches. -/
def alookup {K V : Type} [DecidableEq K] : List (K × V) → K → Option V
  | [], _ => none
  | (k, v) :: rest, key => if k = key then some v else alookup rest key

/-- Update the value stored at the first entry with the key (no-op if the
key is absent; keys are unique in the embedded maps). -/
def aupdate {K V : Type} [DecidableEq K] : List (K × V) → K → (V → V) → List (K × V)
  | [], _, _ => []
  | (k, v) :: rest, key, f =>
      if k = key then (k, f v) :: rest else (k, v) :: aupdate rest key f

/-- Model of `HashMap::insert`: replace the stored value if the key is present,
otherwise append the new entry. -/
def ainsert {K V : Type} [DecidableEq K] (l : List (K × V)) (key : K) (v : V) :
    List (K × V) :=
  if (alookup l key).isSome then aupdate l key (fun _ => v) else l ++ [(key, v)]

/-- Model of `HashMap::remove`: drop the entry with the given key. -/
def aremove {K V : Type} [DecidableEq K] (l : List (K × V)) (key : K) :
    List (K × V) :=
  l.filter (fun kv => kv.1 ≠ key)

@[simp]
theorem alookup_aupdate_self {K V : Type} [DecidableEq K]
    (l : List (K × V)) (k : K) (f : V → V) :
    alookup (aupdate l k f) k = (alookup l k).map f := by
  induction l with
  | nil => rfl
  | cons kv rest ih =>
      rcases kv with ⟨a, b⟩
      by_cases h : a = k
      · subst h
        simp [alookup, aupdate]
      · simp [alookup, aupdate, h, ih]

@[simp]
theorem alookup_aupdate_ne {K V : Type} [DecidableEq K]
    (l : List (K × V)) (k k' : K) (f : V → V) (h : k ≠ k') :
    alookup (aupdate l k f) k' = alookup l k' := by
  induction l with
  | nil => rfl
  | cons kv rest ih =>
      rcases kv with ⟨a, b⟩
      by_cases hk : a = k
      · subst hk
        simp [alookup, aupdate, h]
      · simp [alookup, aupdate, hk, ih]

theorem alookup_append_single {K V : Type} [DecidableEq K]
    (l : List (K × V)) (k : K) (v : V) (h : alookup l k = none) :
    alookup (l ++ [(k, v)]) k = some v := by
  induction l with
  | nil => simp [alookup]
  | cons kv rest ih =>
      rcases kv with ⟨a, b⟩
      by_cases hak : a = k
      · simp [alookup, hak] at h
      · simp [alookup, hak] at h ⊢
        exact ih h

@[simp]
theorem alookup_ainsert_self {K V : Type} [DecidableEq K]
    (l : List (K × V)) (k : K) (v : V) :
    alookup (ainsert l k v) k = some v := by
  unfold ainsert
  cases hw : alookup l k with
  | none => simp [hw, alookup_append_single l k v hw]
  | some w => simp [hw, alookup_aupdate_self]

/-- Executable model of `HashSet<u64>`: a list of tags kept strictly
sorted, so that equal sets are equal lists.  Membership is plain list
membership. -/
abbrev TagSet := List Nat

/-- Model of `HashSet::insert`: sorted insertion without duplication. -/
def tagInsert (x : Nat) : TagSet → TagSet
  | [] => [x]
  | y :: rest =>
      if x < y then x :: y :: rest
      else if x = y then y :: rest
      else y :: tagInsert x rest

/-- Model of `HashSet::remove` (the element, when present). -/
def tagErase (x : Nat) (s : TagSet) : TagSet :=
  s.filter (fun y => y ≠ x)

/-- Model of `HashSet::difference(...).collect()`. -/
def tagDiff (s t : TagSet) : TagSet :=
  s.filter (fun y => !(t.contains y))

/-- Model of `HashSet::union(...).collect()`. -/
def tagUnion (s t : TagSet) : TagSet :=
  t.foldl (fun acc y => tagInsert y acc) s

/-- The `ChannelState` enum from `async/src/api.rs`. -/
inductive ChannelState where
  | Initial
  | Connected
  | Closed
  | Error
  | SendingContent (n : Nat)
  | WillReceiveContent (queue : String) (consumer_tag : Option String)
  | ReceivingContent (queue : String) (consumer_tag : Option String) (n : Nat)
deriving DecidableEq

abbrev RequestId := Nat

/-- The `Answer` enum from `async/src/api.rs`: one variant per outstanding reply kind.
The `Box<dyn ConsumerSubscriber>` payload of `AwaitingBasicConsumeOk` is a
callback capability and is outside the model. -/
inductive Answer where
  | AwaitingChannelOpenOk (r : RequestId)
  | AwaitingChannelFlowOk (r : RequestId)
  | AwaitingChannelCloseOk (r : RequestId)
  | AwaitingAccessRequestOk (r : RequestId)
  | AwaitingExchangeDeclareOk (r : RequestId)
  | AwaitingExchangeDeleteOk (r : RequestId)
  | AwaitingExchangeBindOk (r : RequestId)
  | AwaitingExchangeUnbindOk (r : RequestId)
  | AwaitingQueueDeclareOk (r : RequestId)
  | AwaitingQueueBindOk (r : RequestId) (exchange routing_key : String)
  | AwaitingQueuePurgeOk (r : RequestId) (queue : String)
  | AwaitingQueueDeleteOk (r : RequestId) (queue : String)
  | AwaitingQueueUnbindOk (r : RequestId) (exchange routing_key : String)
  | AwaitingBasicQosOk (r : RequestId) (prefetch_size : Nat) (prefetch_count : Nat) (global : Bool)
  | AwaitingBasicConsumeOk (r : RequestId) (queue consumer_tag : String)
      (no_local no_ack excl nowait : Bool)
  | AwaitingBasicCancelOk (r : RequestId)
  | AwaitingBasicGetAnswer (r : RequestId) (queue : String)
  | AwaitingBasicRecoverOk (r : RequestId)
  | AwaitingConfirmSelectOk (r : RequestId)
  | AwaitingPublishConfirm (r : RequestId)
deriving DecidableEq

/-- The `ErrorKind` taxonomy from the error module (taxonomy given in spec §7).  The
payload of `InvalidMethod` is dropped. -/
inductive ErrorKind where
  | InvalidChannel (id : Nat)
  | NotConnected
  | UnexpectedAnswer
  | InvalidMethod
deriving DecidableEq

/-- The `BasicProperties` type from the AMQP types layer, abstracted: the core only
stores it and resets it with `default`. -/
structure BasicProperties where
  fields : List (String × String) := []
deriving DecidableEq

instance : Inhabited BasicProperties := ⟨{}⟩

/-- The `Acker` type (from `acker.rs`, not under `src/`).  Modelled from the spec:
the Delivery carries an acker built from the channel id, the delivery tag
and an optional internal RPC handle (kept as a presence flag). -/
structure Acker where
  channel_id : Nat
  delivery_tag : Nat
  has_internal_rpc : Bool
deriving DecidableEq

/-- Constructor `Acker::new` — Modelled from the spec: stores its three arguments. -/
def Acker.new (channel_id delivery_tag : Nat) (has_internal_rpc : Bool) : Acker :=
  ⟨channel_id, delivery_tag, has_internal_rpc⟩

/-- The `Delivery` struct from `src/message.rs`.  Bytes are embedded as `List Nat`. -/
structure Delivery where
  delivery_tag : Nat
  exchange : String
  routing_key : String
  redelivered : Bool
  properties : BasicProperties
  data : List Nat
  acker : Acker
deriving DecidableEq

/-- Constructor `Delivery::new` from `src/message.rs`: default properties, empty data,
fresh acker. -/
def Delivery.new (channel_id delivery_tag : Nat) (exchange routing_key : String)
    (redelivered : Bool) (internal_rpc : Bool) : Delivery :=
  { delivery_tag := delivery_tag
    exchange := exchange
    routing_key := routing_key
    redelivered := redelivered
    properties := default
    data := []
    acker := Acker.new channel_id delivery_tag internal_rpc }

/-- Method `Delivery::receive_content` from `src/message.rs`:
`self.data.extend(data)`. -/
def Delivery.receive_content (d : Delivery) (data : List Nat) : Delivery :=
  { d with data := d.data ++ data }

/-- The older message module used by `async/src/api.rs` is not under `src/`.
Modelled from the spec: a fresh `Delivery` is created from the method's
delivery tag, exchange, routing key and redelivered flag, with default
properties and an empty data buffer. -/
def mkDelivery (delivery_tag : Nat) (exchange routing_key : String)
    (redelivered : Bool) : Delivery :=
  Delivery.new 0 delivery_tag exchange routing_key redelivered false

/-- The `BasicGetMessage` struct from `src/message.rs`. -/
structure BasicGetMessage where
  delivery : Delivery
  message_count : Nat
deriving DecidableEq

/-- The `Consumer` type (from `consumer.rs`, not under `src/`).  Modelled from the
spec: tag, flags, optional `current_message` slot, cancelled flag.  The
subscriber capability is outside the model. -/
structure Consumer where
  tag : String
  no_local : Bool
  no_ack : Bool
  excl : Bool
  nowait : Bool
  current_message : Option Delivery
  cancelled : Bool
deriving DecidableEq

/-- Constructor `Consumer::new` — Modelled from the spec: fresh consumer with no
current message and not cancelled. -/
def Consumer.new (tag : String) (no_local no_ack excl nowait : Bool) : Consumer :=
  { tag := tag, no_local := no_local, no_ack := no_ack, excl := excl,
    nowait := nowait, current_message := none, cancelled := false }

/-- The `Binding` type (from `queue.rs`, not under `src/`).  Modelled from the spec:
`(exchange, routing_key, nowait, active)` with `active = false` from
issuance until the matching `BindOk` arrives. -/
structure Binding where
  exchange : String
  routing_key : String
  nowait : Bool
  active : Bool
deriving DecidableEq

/-- Constructor `Binding::new` — Modelled from the spec: starts inactive. -/
def Binding.new (exchange routing_key : String) (nowait : Bool) : Binding :=
  ⟨exchange, routing_key, nowait, false⟩

/-- The `Queue` client-side shadow (from `queue.rs`, not under `src/`).
Modelled from the spec: name, counters, bindings, consumers, optional
`current_get_message` slot. -/
structure Queue where
  name : String
  message_count : Nat
  consumer_count : Nat
  bindings : List ((String × String) × Binding)
  consumers : List (String × Consumer)
  current_get_message : Option BasicGetMessage
deriving DecidableEq

/-- Constructor `Queue::new` — Modelled from the spec: fresh shadow with empty maps. -/
def Queue.new (name : String) (message_count consumer_count : Nat) : Queue :=
  { name := name, message_count := message_count,
    consumer_count := consumer_count, bindings := [], consumers := [],
    current_get_message := none }

/-- Per-channel model (from `connection.rs`, not under `src/`).  Modelled
from the spec §3: state, awaiting FIFO, flow flags, queue shadows, QoS and
publisher-confirm bookkeeping. -/
structure Channel where
  id : Nat
  state : ChannelState
  awaiting : List Answer
  send_flow : Bool
  receive_flow : Bool
  queues : List (String × Queue)
  prefetch_size : Nat
  prefetch_count : Nat
  confirm : Bool
  message_count : Nat
  unacked : TagSet
  acked : TagSet
  nacked : TagSet
deriving DecidableEq

/-- A fresh channel as inserted by the handshake layer — Modelled from the
spec: state `Initial`, both flow flags `true`, confirms off. -/
def Channel.new (id : Nat) : Channel :=
  { id := id, state := ChannelState.Initial, awaiting := [],
    send_flow := true, receive_flow := true, queues := [],
    prefetch_size := 0, prefetch_count := 0, confirm := false,
    message_count := 0, unacked := [], acked := [], nacked := [] }

/-- Typed outbound method frames, restricted to the methods the embedded
operations emit.  `FieldTable` arguments are embedded as string pairs. -/
inductive AMQPMethod where
  | channelOpen (out_of_band : String)
  | channelFlow (active : Bool)
  | channelFlowOk (active : Bool)
  | channelClose (reply_code : Nat) (reply_text : String) (class_id method_id : Nat)
  | channelCloseOk
  | queueDeclare (ticket : Nat) (queue : String)
      (passive durable excl auto_delete nowait : Bool)
      (arguments : List (String × String))
  | basicPublish (ticket : Nat) (exchange routing_key : String)
      (mandatory immediate : Bool)
  | confirmSelect (nowait : Bool)
deriving DecidableEq

/-- The queue-iteration loop inside `Connection::receive_basic_deliver`
(`async/src/api.rs:1287-1298`): for every queue of the channel, in map
iteration order, the loop overwrites the channel state with
`WillReceiveContent(queue_name, Some(consumer_tag))` and installs the fresh
delivery in that queue's consumer carrying the tag, when present.  The list
order of the embedded map stands for the `HashMap` iteration order. -/
def receiveDeliverLoop (consumer_tag : String) (d : Delivery) :
    ChannelState → List (String × Queue) → ChannelState × List (String × Queue)
  | st, [] => (st, [])
  | _, (name, q) :: rest =>
      let q1 := { q with consumers :=
        (aupdate q.consumers consumer_tag (fun cs => { cs with current_message := some d })) }
      let r := receiveDeliverLoop consumer_tag d
        (ChannelState.WillReceiveContent name (some consumer_tag)) rest
      (r.1, (name, q1) :: r.2)

/-- Connection registry (from `connection.rs`, not under `src/`).  Modelled
from the spec §3: channel directory, monotonic request ids starting at 1,
completion maps, name-generation map, global QoS.  `frames` is the outbound
frame buffer standing for the frame sink (modelled as infallible). -/
structure Connection where
  channels : List (Nat × Channel)
  next_request_id : Nat
  prefetch_size : Nat
  prefetch_count : Nat
  finished_reqs : List (Nat × Bool)
  finished_get_reqs : List (Nat × Bool)
  generated_names : List (Nat × String)
  frames : List (Nat × AMQPMethod)
deriving DecidableEq

namespace Connection

/-- Channel lookup — Modelled from the spec §4.2. -/
def getChannel (conn : Connection) (ch : Nat) : Option Channel :=
  alookup conn.channels ch

/-- Mutator `set_channel_state` — Modelled from the spec §4.1 (state mutator). -/
def set_channel_state (conn : Connection) (ch : Nat) (st : ChannelState) : Connection :=
  { conn with channels := aupdate conn.channels ch (fun c => { c with state := st }) }

/-- Predicate `is_connected` — Modelled from the spec §4.4: "channel must be
Connected". -/
def is_connected (conn : Connection) (ch : Nat) : Bool :=
  match alookup conn.channels ch with
  | some c => decide (c.state = ChannelState.Connected)
  | none => false

/-- Check `check_state` — Modelled from the spec §4.1/§7: a state expectation
that fails surfaces `UnexpectedAnswer` ("precondition for an inbound
method's state failed"). -/
def check_state (conn : Connection) (ch : Nat) (st : ChannelState) :
    Except ErrorKind Unit :=
  match alookup conn.channels ch with
  | some c => if c.state = st then Except.ok () else Except.error ErrorKind.UnexpectedAnswer
  | none => Except.error (ErrorKind.InvalidChannel ch)

/-- Operation `get_next_answer` — Modelled from the spec §4.1: `pop_front` on the
channel's `awaiting` FIFO. -/
def get_next_answer (conn : Connection) (ch : Nat) : Option Answer × Connection :=
  match alookup conn.channels ch with
  | none => (none, conn)
  | some c =>
    match c.awaiting.head? with
    | none => (none, conn)
    | some a =>
        (some a,
         { conn with channels :=
             (aupdate conn.channels ch (fun cc => { cc with awaiting := cc.awaiting.tail })) })

/-- Operation `push_back_answer` — Modelled from the spec §4.1: `push_back` on the
channel's `awaiting` FIFO. -/
def push_back_answer (conn : Connection) (ch : Nat) (a : Answer) : Connection :=
  { conn with channels :=
      (aupdate conn.channels ch (fun c => { c with awaiting := c.awaiting ++ [a] })) }

/-- Allocation of `next_request_id` — Modelled from the spec §4.2: take the
counter, increment. -/
def allocRequestId (conn : Connection) : Nat × Connection :=
  (conn.next_request_id, { conn with next_request_id := conn.next_request_id + 1 })

/-- Operation `send_method_frame` — Modelled from the spec §6: the frame sink, here
an infallible outbound buffer. -/
def send_method_frame (conn : Connection) (ch : Nat) (m : AMQPMethod) : Connection :=
  { conn with frames := conn.frames ++ [(ch, m)] }

/-- Method `Connection::channel_open` (`async/src/api.rs:144-167`): guard on
channel existence and `Initial` state (a failed state check sets the
channel to `Error`), emit `channel.open`, allocate a request id, push
`AwaitingChannelOpenOk`. -/
def channel_open (conn : Connection) (ch : Nat) (out_of_band : String) :
    Except ErrorKind RequestId × Connection :=
  if (alookup conn.channels ch).isSome = false then
    (Except.error (ErrorKind.InvalidChannel ch), conn)
  else
    match conn.check_state ch ChannelState.Initial with
    | Except.error e => (Except.error e, conn.set_channel_state ch ChannelState.Error)
    | Except.ok _ =>
        let conn := conn.send_method_frame ch (AMQPMethod.channelOpen out_of_band)
        let (rid, conn) := conn.allocRequestId
        (Except.ok rid, conn.push_back_answer ch (Answer.AwaitingChannelOpenOk rid))

/-- Method `Connection::receive_channel_open_ok` (`async/src/api.rs:169-196`):
guards (existence, `Initial` state — a failed check sets `Error`), pop the
awaiting head; on `AwaitingChannelOpenOk` mark the request finished and go
to `Connected`, otherwise set `Error` and fail with `UnexpectedAnswer`. -/
def receive_channel_open_ok (conn : Connection) (ch : Nat) :
    Except ErrorKind Unit × Connection :=
  if (alookup conn.channels ch).isSome = false then
    (Except.error (ErrorKind.InvalidChannel ch), conn)
  else
    match conn.check_state ch ChannelState.Initial with
    | Except.error e => (Except.error e, conn.set_channel_state ch ChannelState.Error)
    | Except.ok _ =>
        let (ans, conn) := conn.get_next_answer ch
        match ans with
        | some (Answer.AwaitingChannelOpenOk rid) =>
            let conn := { conn with finished_reqs := ainsert conn.finished_reqs rid true }
            (Except.ok (), conn.set_channel_state ch ChannelState.Connected)
        | _ =>
            (Except.error ErrorKind.UnexpectedAnswer,
             conn.set_channel_state ch ChannelState.Error)

/-- Method `Connection::channel_flow` (`async/src/api.rs:198-215`): guards, emit
`channel.flow`, allocate a request id, push `AwaitingChannelFlowOk`. -/
def channel_flow (conn : Connection) (ch : Nat) (active : Bool) :
    Except ErrorKind RequestId × Connection :=
  if (alookup conn.channels ch).isSome = false then
    (Except.error (ErrorKind.InvalidChannel ch), conn)
  else if conn.is_connected ch = false then
    (Except.error ErrorKind.NotConnected, conn)
  else
    let conn := conn.send_method_frame ch (AMQPMethod.channelFlow active)
    let (rid, conn) := conn.allocRequestId
    (Except.ok rid, conn.push_back_answer ch (Answer.AwaitingChannelFlowOk rid))

/-- Method `Connection::channel_close_ok` (`async/src/api.rs:329-341`): guards
(existence, connected), then emit `channel.close_ok`. -/
def channel_close_ok (conn : Connection) (ch : Nat) :
    Except ErrorKind Unit × Connection :=
  if (alookup conn.channels ch).isSome = false then
    (Except.error (ErrorKind.InvalidChannel ch), conn)
  else if conn.is_connected ch = false then
    (Except.error ErrorKind.NotConnected, conn)
  else
    (Except.ok (), conn.send_method_frame ch AMQPMethod.channelCloseOk)

/-- Method `Connection::receive_channel_close` (`async/src/api.rs:307-327`):
guards, pop and discard the awaiting head, set the state to `Closed`, then
call `channel_close_ok`. -/
def receive_channel_close (conn : Connection) (ch : Nat) :
    Except ErrorKind Unit × Connection :=
  if (alookup conn.channels ch).isSome = false then
    (Except.error (ErrorKind.InvalidChannel ch), conn)
  else if conn.is_connected ch = false then
    (Except.error ErrorKind.NotConnected, conn)
  else
    let (_, conn) := conn.get_next_answer ch
    let conn := conn.set_channel_state ch ChannelState.Closed
    conn.channel_close_ok ch

/-- Method `Connection::receive_exchange_declare_ok` (`async/src/api.rs:479-503`):
guards, pop the awaiting head; on `AwaitingExchangeDeclareOk` mark the
request finished, otherwise set `Error` and fail with `UnexpectedAnswer`. -/
def receive_exchange_declare_ok (conn : Connection) (ch : Nat) :
    Except ErrorKind Unit × Connection :=
  if (alookup conn.channels ch).isSome = false then
    (Except.error (ErrorKind.InvalidChannel ch), conn)
  else if conn.is_connected ch = false then
    (Except.error ErrorKind.NotConnected, conn)
  else
    let (ans, conn) := conn.get_next_answer ch
    match ans with
    | some (Answer.AwaitingExchangeDeclareOk rid) =>
        (Except.ok (), { conn with finished_reqs := ainsert conn.finished_reqs rid true })
    | _ =>
        (Except.error ErrorKind.UnexpectedAnswer,
         conn.set_channel_state ch ChannelState.Error)

/-- Method `Connection::queue_declare` (`async/src/api.rs:693-732`): guards, emit
`queue.declare`, allocate a request id, push `AwaitingQueueDeclareOk`. -/
def queue_declare (conn : Connection) (ch : Nat) (ticket : Nat) (queue : String)
    (passive durable excl auto_delete nowait : Bool)
    (arguments : List (String × String)) :
    Except ErrorKind RequestId × Connection :=
  if (alookup conn.channels ch).isSome = false then
    (Except.error (ErrorKind.InvalidChannel ch), conn)
  else if conn.is_connected ch = false then
    (Except.error ErrorKind.NotConnected, conn)
  else
    let conn := conn.send_method_frame ch
      (AMQPMethod.queueDeclare ticket queue passive durable excl auto_delete nowait arguments)
    let (rid, conn) := conn.allocRequestId
    (Except.ok rid, conn.push_back_answer ch (Answer.AwaitingQueueDeclareOk rid))

/-- Method `Connection::receive_queue_declare_ok` (`async/src/api.rs:734-763`):
guards, pop the awaiting head; on `AwaitingQueueDeclareOk` mark the request
finished, record the server-assigned name in `generated_names`, and insert
a fresh `Queue` shadow keyed by that name; otherwise set `Error` and fail
with `UnexpectedAnswer`. -/
def receive_queue_declare_ok (conn : Connection) (ch : Nat) (queue : String)
    (message_count consumer_count : Nat) :
    Except ErrorKind Unit × Connection :=
  if (alookup conn.channels ch).isSome = false then
    (Except.error (ErrorKind.InvalidChannel ch), conn)
  else if conn.is_connected ch = false then
    (Except.error ErrorKind.NotConnected, conn)
  else
    let (ans, conn) := conn.get_next_answer ch
    match ans with
    | some (Answer.AwaitingQueueDeclareOk rid) =>
        let conn := { conn with
          finished_reqs := ainsert conn.finished_reqs rid true,
          generated_names := ainsert conn.generated_names rid queue }
        (Except.ok (),
         { conn with channels := (aupdate conn.channels ch (fun c =>
             { c with queues :=
                 (ainsert c.queues queue (Queue.new queue message_count consumer_count)) })) })
    | _ =>
        (Except.error ErrorKind.UnexpectedAnswer,
         conn.set_channel_state ch ChannelState.Error)

/-- Method `Connection::basic_publish` (`async/src/api.rs:1232-1271`): guards,
emit `basic.publish`, allocate a request id; on a confirm channel push
`AwaitingPublishConfirm`, return the current `message_count` as the
delivery tag, insert it into `unacked` and increment `message_count`;
otherwise return 0. -/
def basic_publish (conn : Connection) (ch : Nat) (ticket : Nat)
    (exchange routing_key : String) (mandatory immediate : Bool) :
    Except ErrorKind Nat × Connection :=
  if (alookup conn.channels ch).isSome = false then
    (Except.error (ErrorKind.InvalidChannel ch), conn)
  else if conn.is_connected ch = false then
    (Except.error ErrorKind.NotConnected, conn)
  else
    let conn := conn.send_method_frame ch
      (AMQPMethod.basicPublish ticket exchange routing_key mandatory immediate)
    let (rid, conn) := conn.allocRequestId
    match alookup conn.channels ch with
    | some c =>
        if c.confirm then
          let delivery_tag := c.message_count
          (Except.ok delivery_tag,
           { conn with channels := (aupdate conn.channels ch (fun c =>
               { c with
                 awaiting := c.awaiting ++ [Answer.AwaitingPublishConfirm rid],
                 unacked := tagInsert delivery_tag c.unacked,
                 message_count := c.message_count + 1 })) })
        else (Except.ok 0, conn)
    | none => (Except.ok 0, conn)

/-- Method `Connection::receive_basic_deliver` (`async/src/api.rs:1273-1302`):
guards, then run the queue-iteration loop that rewrites the channel state
and installs the fresh delivery on the consumer with the method's tag. -/
def receive_basic_deliver (conn : Connection) (ch : Nat) (consumer_tag : String)
    (delivery_tag : Nat) (exchange routing_key : String) (redelivered : Bool) :
    Except ErrorKind Unit × Connection :=
  if (alookup conn.channels ch).isSome = false then
    (Except.error (ErrorKind.InvalidChannel ch), conn)
  else if conn.is_connected ch = false then
    (Except.error ErrorKind.NotConnected, conn)
  else
    (Except.ok (),
     { conn with channels := (aupdate conn.channels ch (fun c =>
         let r := receiveDeliverLoop consumer_tag
           (mkDelivery delivery_tag exchange routing_key redelivered) c.state c.queues
         { c with state := r.1, queues := r.2 })) })

/-- Method `Connection::receive_basic_get_empty` (`async/src/api.rs:1375-1399`):
guards, pop the awaiting head; on `AwaitingBasicGetAnswer` record `false`
in `finished_get_reqs`, otherwise set `Error` and fail with
`UnexpectedAnswer`. -/
def receive_basic_get_empty (conn : Connection) (ch : Nat) :
    Except ErrorKind Unit × Connection :=
  if (alookup conn.channels ch).isSome = false then
    (Except.error (ErrorKind.InvalidChannel ch), conn)
  else if conn.is_connected ch = false then
    (Except.error ErrorKind.NotConnected, conn)
  else
    let (ans, conn) := conn.get_next_answer ch
    match ans with
    | some (Answer.AwaitingBasicGetAnswer rid _) =>
        (Except.ok (), { conn with finished_get_reqs := ainsert conn.finished_get_reqs rid false })
    | _ =>
        (Except.error ErrorKind.UnexpectedAnswer,
         conn.set_channel_state ch ChannelState.Error)

/-- Method `Connection::confirm_select` (`async/src/api.rs:1552-1571`): guards,
emit `confirm.select`, allocate a request id, push
`AwaitingConfirmSelectOk`. -/
def confirm_select (conn : Connection) (ch : Nat) (nowait : Bool) :
    Except ErrorKind RequestId × Connection :=
  if (alookup conn.channels ch).isSome = false then
    (Except.error (ErrorKind.InvalidChannel ch), conn)
  else if conn.is_connected ch = false then
    (Except.error ErrorKind.NotConnected, conn)
  else
    let conn := conn.send_method_frame ch (AMQPMethod.confirmSelect nowait)
    let (rid, conn) := conn.allocRequestId
    (Except.ok rid, conn.push_back_answer ch (Answer.AwaitingConfirmSelectOk rid))

/-- Method `Connection::receive_confirm_select_ok` (`async/src/api.rs:1573-1601`):
guards, pop the awaiting head; on `AwaitingConfirmSelectOk` mark the
request finished, set `confirm := true` and `message_count := 1`; otherwise
set `Error` and fail with `UnexpectedAnswer`. -/
def receive_confirm_select_ok (conn : Connection) (ch : Nat) :
    Except ErrorKind Unit × Connection :=
  if (alookup conn.channels ch).isSome = false then
    (Except.error (ErrorKind.InvalidChannel ch), conn)
  else if conn.is_connected ch = false then
    (Except.error ErrorKind.NotConnected, conn)
  else
    let (ans, conn) := conn.get_next_answer ch
    match ans with
    | some (Answer.AwaitingConfirmSelectOk rid) =>
        let conn := { conn with finished_reqs := ainsert conn.finished_reqs rid true }
        (Except.ok (),
         { conn with channels := (aupdate conn.channels ch (fun c =>
             { c with confirm := true, message_count := 1 })) })
    | _ =>
        (Except.error ErrorKind.UnexpectedAnswer,
         conn.set_channel_state ch ChannelState.Error)

/-- Method `Connection::receive_basic_ack` (`async/src/api.rs:1603-1641`): guards,
pop the awaiting head; on `AwaitingPublishConfirm` mark the request
finished and, on a confirm channel, move the acknowledged tags from
`unacked` to `acked` (all tags `≤ delivery_tag` when `multiple`, else the
single present tag); otherwise set `Error` and fail with
`UnexpectedAnswer`. -/
def receive_basic_ack (conn : Connection) (ch : Nat) (delivery_tag : Nat)
    (multiple : Bool) :
    Except ErrorKind Unit × Connection :=
  if (alookup conn.channels ch).isSome = false then
    (Except.error (ErrorKind.InvalidChannel ch), conn)
  else if conn.is_connected ch = false then
    (Except.error ErrorKind.NotConnected, conn)
  else
    let (ans, conn) := conn.get_next_answer ch
    match ans with
    | some (Answer.AwaitingPublishConfirm rid) =>
        let conn := { conn with finished_reqs := ainsert conn.finished_reqs rid true }
        (Except.ok (),
         { conn with channels := (aupdate conn.channels ch (fun c =>
             if c.confirm then
               if multiple then
                 let h := c.unacked.filter (fun t => decide (t ≤ delivery_tag))
                 { c with unacked := tagDiff c.unacked h, acked := tagUnion c.acked h }
               else
                 if c.unacked.contains delivery_tag then
                   { c with unacked := tagErase delivery_tag c.unacked,
                            acked := tagInsert delivery_tag c.acked }
                 else c
             else c)) })
    | _ =>
        (Except.error ErrorKind.UnexpectedAnswer,
         conn.set_channel_state ch ChannelState.Error)

/-- Method `Connection::receive_basic_nack` (`async/src/api.rs:1643-1681`),
embedded exactly as written in the source: in the `multiple` branch the
source assigns `c.acked = c.nacked.union(&h)` (line 1665), i.e. it
overwrites `acked` with `nacked ∪ H` and leaves `nacked` untouched; in the
single-tag branch it moves the tag from `unacked` into `nacked`. -/
def receive_basic_nack (conn : Connection) (ch : Nat) (delivery_tag : Nat)
    (multiple requeue : Bool) :
    Except ErrorKind Unit × Connection :=
  if (alookup conn.channels ch).isSome = false then
    (Except.error (ErrorKind.InvalidChannel ch), conn)
  else if conn.is_connected ch = false then
    (Except.error ErrorKind.NotConnected, conn)
  else
    let (ans, conn) := conn.get_next_answer ch
    match ans with
    | some (Answer.AwaitingPublishConfirm rid) =>
        let conn := { conn with finished_reqs := ainsert conn.finished_reqs rid true }
        (Except.ok (),
         { conn with channels := (aupdate conn.channels ch (fun c =>
             if c.confirm then
               if multiple then
                 let h := c.unacked.filter (fun t => decide (t ≤ delivery_tag))
                 { c with unacked := tagDiff c.unacked h, acked := tagUnion c.nacked h }
               else
                 if c.unacked.contains delivery_tag then
                   { c with unacked := tagErase delivery_tag c.unacked,
                            nacked := tagInsert delivery_tag c.nacked }
                 else c
             else c)) })
    | _ =>
        (Except.error ErrorKind.UnexpectedAnswer,
         conn.set_channel_state ch ChannelState.Error)

end Connection

/-! ## Concrete fixtures -/

/-- A channel already opened by the handshake layer, in state `Connected`. -/
def connectedChannel (id : Nat) : Channel :=
  { Channel.new id with state := ChannelState.Connected }

/-- A connection holding exactly one channel. -/
def baseConn (c : Channel) : Connection :=
  { channels := [(c.id, c)], next_request_id := 1, prefetch_size := 0,
    prefetch_count := 0, finished_reqs := [], finished_get_reqs := [],
    generated_names := [], frames := [] }

/-- Scenario of spec §8.4: `confirm.select` → `SelectOk`, three publishes,
then inbound `basic.ack(delivery_tag := 2, multiple := true)`. -/
def confirmScenario : Connection :=
  let conn := baseConn (connectedChannel 1)
  let conn := (conn.confirm_select 1 false).2
  let conn := (conn.receive_confirm_select_ok 1).2
  let conn := (conn.basic_publish 1 0 "e" "rk" false false).2
  let conn := (conn.basic_publish 1 0 "e" "rk" false false).2
  let conn := (conn.basic_publish 1 0 "e" "rk" false false).2
  (conn.receive_basic_ack 1 2 true).2

/-- Confirm-mode connection reached by `confirm.select` → `SelectOk`, three
publishes (tags 1, 2, 3) and a single-tag inbound `basic.ack(1)`:
`unacked = {2, 3}`, `acked = {1}`, `nacked = {}`, with an
`AwaitingPublishConfirm` at the head of `awaiting`. -/
def nackScenario : Connection :=
  let conn := baseConn (connectedChannel 1)
  let conn := (conn.confirm_select 1 false).2
  let conn := (conn.receive_confirm_select_ok 1).2
  let conn := (conn.basic_publish 1 0 "e" "rk" false false).2
  let conn := (conn.basic_publish 1 0 "e" "rk" false false).2
  let conn := (conn.basic_publish 1 0 "e" "rk" false false).2
  (conn.receive_basic_ack 1 1 false).2

/-- A connected channel with one outstanding `channel.close` request. -/
def closeFixture : Connection :=
  baseConn { connectedChannel 1 with awaiting := [Answer.AwaitingChannelCloseOk 7] }

/-! ## Claim theorems -/

/-- C10: for every `Delivery` `d` and byte vector `b`,
`receive_content b` leaves every field of `d` unchanged except `data`,
which becomes the old data with `b` appended; on a fresh `Delivery`
(whose data starts empty) the resulting data is `b` itself. -/
theorem C10_receive_content (d : Delivery) (b : List Nat) :
    (d.receive_content b).data = d.data ++ b ∧
    (d.receive_content b).delivery_tag = d.delivery_tag ∧
    (d.receive_content b).exchange = d.exchange ∧
    (d.receive_content b).routing_key = d.routing_key ∧
    (d.receive_content b).redelivered = d.redelivered ∧
    (d.receive_content b).properties = d.properties ∧
    (d.receive_content b).acker = d.acker ∧
    ∀ cid tag ex rk rd rpc,
      ((Delivery.new cid tag ex rk rd rpc).receive_content b).data = b := by
  refine ⟨rfl, rfl, rfl, rfl, rfl, rfl, rfl, ?_⟩
  intro cid tag ex rk rd rpc
  simp [Delivery.new, Delivery.receive_content]

/-- C4: after `confirm.select`/`SelectOk` (confirm on, message_count 1),
three successful publishes return delivery tags 1, 2, 3, and inbound
`basic.ack(delivery_tag := 2, multiple := true)` leaves the confirm sets
exactly `acked = {1, 2}`, `unacked = {3}`, `nacked = {}`. -/
theorem C4_confirm_multiple_ack :
    (let conn := baseConn (connectedChannel 1)
     let r0 := conn.confirm_select 1 false
     let r1 := r0.2.receive_confirm_select_ok 1
     let p1 := r1.2.basic_publish 1 0 "e" "rk" false false
     let p2 := p1.2.basic_publish 1 0 "e" "rk" false false
     let p3 := p2.2.basic_publish 1 0 "e" "rk" false false
     let a := p3.2.receive_basic_ack 1 2 true
     r1.1 = Except.ok () ∧
     ((r1.2.getChannel 1).map fun c => (c.confirm, c.message_count)) = some (true, 1) ∧
     p1.1 = Except.ok 1 ∧ p2.1 = Except.ok 2 ∧ p3.1 = Except.ok 3 ∧
     a.1 = Except.ok () ∧
     ((a.2.getChannel 1).map fun c => (c.acked, c.unacked, c.nacked)) =
       some ([1, 2], [3], [])) := by
  decide

/-- C1: evaluation of `receive_basic_nack` at a concrete reachable confirm
state with `unacked = {2, 3}`, `acked = {1}`, `nacked = {}` and an
`AwaitingPublishConfirm` head.  Inbound `basic.nack(delivery_tag := 3,
multiple := true)` removes `H = {2, 3}` from `unacked` but, contrary to the
claim, leaves `nacked` empty and overwrites `acked` with `nacked ∪ H =
{2, 3}` (dropping the previously acked tag 1): the assignment at
`async/src/api.rs:1665` targets `acked` instead of `nacked`. -/
theorem C1_nack_multiple_bug :
    ((nackScenario.getChannel 1).map (fun c => (c.unacked, c.acked, c.nacked)) =
       some ([2, 3], [1], []) ∧
     (let r := nackScenario.receive_basic_nack 1 3 true false
      r.1 = Except.ok () ∧
      ((r.2.getChannel 1).map fun c => (c.unacked, c.acked, c.nacked)) =
        some ([], [2, 3], []))) := by
  decide

/-- C3: evaluation of `receive_channel_close` on a connected channel with a
pending reply.  The handler drops the awaiting head and sets the state to
`Closed`, but the subsequent `channel_close_ok` call fails its own
connected-state guard against the now-`Closed` channel: the method returns
`NotConnected` and no `channel.close_ok` frame is ever emitted, contrary to
the claim's "emits a channel.close_ok frame … returning success". -/
theorem C3_close_ok_never_emitted :
    (let r := closeFixture.receive_channel_close 1
     r.1 = Except.error ErrorKind.NotConnected ∧
     ((r.2.getChannel 1).map fun c => (c.state, c.awaiting)) =
       some (ChannelState.Closed, []) ∧
     r.2.frames = closeFixture.frames) := by
  decide

/-- A connection whose only channel is in the terminal state `Closed`. -/
def closedChannelConn : Connection :=
  baseConn { Channel.new 1 with state := ChannelState.Closed }

/-- C2 (counterexample): on a channel in state `Closed` (neither
`Connected` nor `Initial`), `receive_queue_declare_ok` does not transition
the channel to `Error` as the claim states — it returns `NotConnected` and
leaves the connection untouched, the state still `Closed`. -/
theorem C2_counterexample :
    (let r := closedChannelConn.receive_queue_declare_ok 1 "q" 0 0
     r.1 = Except.error ErrorKind.NotConnected ∧
     r.2 = closedChannelConn ∧
     ((r.2.getChannel 1).map fun c => c.state) ≠ some ChannelState.Error) := by
  decide

/-- C2 (amended): for the inbound handlers guarded by the connected-state
pre-check (here the two cited, `receive_queue_declare_ok` and
`receive_basic_get_empty`), receiving the method while the channel's state
is neither `Connected` nor `Initial` returns `NotConnected` and performs no
model mutation at all — in particular the state stays unchanged and is not
set to `Error`. -/
theorem C2_not_connected_no_mutation (conn : Connection) (ch : Nat) (c : Channel)
    (hc : conn.getChannel ch = some c)
    (h1 : c.state ≠ ChannelState.Connected) (h2 : c.state ≠ ChannelState.Initial)
    (queue : String) (mc cc : Nat) :
    conn.receive_queue_declare_ok ch queue mc cc =
      (Except.error ErrorKind.NotConnected, conn) ∧
    conn.receive_basic_get_empty ch =
      (Except.error ErrorKind.NotConnected, conn) := by
  have hl : alookup conn.channels ch = some c := hc
  constructor <;>
    simp [Connection.receive_queue_declare_ok, Connection.receive_basic_get_empty,
          Connection.is_connected, hl, h1]

/-- C2 witness: the amended statement applied at the concrete closed
channel. -/
theorem C2_not_connected_no_mutation_witness :
    closedChannelConn.receive_queue_declare_ok 1 "q" 0 0 =
      (Except.error ErrorKind.NotConnected, closedChannelConn) ∧
    closedChannelConn.receive_basic_get_empty 1 =
      (Except.error ErrorKind.NotConnected, closedChannelConn) :=
  C2_not_connected_no_mutation closedChannelConn 1
    { Channel.new 1 with state := ChannelState.Closed }
    (by decide) (by decide) (by decide) "q" 0 0

/-- C6 (counterexample): `channel_open` on an existing channel that is not
in `Initial` (here: `Connected`) fails its guard but does mutate the model:
it sets the channel's state to `Error`, contrary to the claim's "without
mutating any model state, including the channel's state field". -/
theorem C6_counterexample :
    (let r := (baseConn (connectedChannel 1)).channel_open 1 ""
     r.1 = Except.error ErrorKind.UnexpectedAnswer ∧
     ((r.2.getChannel 1).map fun c => c.state) = some ChannelState.Error ∧
     r.2 ≠ baseConn (connectedChannel 1)) := by
  decide

/-- C6 (amended): issuer guard failures mutate nothing, with one exception.
A missing channel yields `InvalidChannel` with the connection unchanged
(shown for `channel_open` and `channel_flow`); a `Connected`-guarded issuer
(here `channel_flow`) on a channel not in `Connected` yields `NotConnected`
with the connection unchanged; but `channel_open` on a channel not in
`Initial` returns the state-check error only after setting that channel's
state to `Error`. -/
theorem C6_issuer_guards (conn : Connection) (ch : Nat) (s : String) (active : Bool) :
    (conn.getChannel ch = none →
      conn.channel_open ch s = (Except.error (ErrorKind.InvalidChannel ch), conn) ∧
      conn.channel_flow ch active = (Except.error (ErrorKind.InvalidChannel ch), conn)) ∧
    (∀ c, conn.getChannel ch = some c →
      (c.state ≠ ChannelState.Initial →
        conn.channel_open ch s =
          (Except.error ErrorKind.UnexpectedAnswer,
           conn.set_channel_state ch ChannelState.Error)) ∧
      (c.state ≠ ChannelState.Connected →
        conn.channel_flow ch active = (Except.error ErrorKind.NotConnected, conn))) := by
  constructor
  · intro hnone
    have hl : alookup conn.channels ch = none := hnone
    constructor <;> simp [Connection.channel_open, Connection.channel_flow, hl]
  · intro c hc
    have hl : alookup conn.channels ch = some c := hc
    constructor
    · intro hst
      simp [Connection.channel_open, Connection.check_state, hl, hst]
    · intro hst
      simp [Connection.channel_flow, Connection.is_connected, hl, hst]

/-- C6 witness: the amended statement applied at concrete connections: a
connection with no channel 2, and a connection whose channel 1 is
`Connected` (so not `Initial`) for `channel_open` and whose channel is
`Closed` (so not `Connected`) for `channel_flow`. -/
theorem C6_issuer_guards_witness :
    ((baseConn (connectedChannel 1)).channel_open 2 "" =
       (Except.error (ErrorKind.InvalidChannel 2), baseConn (connectedChannel 1))) ∧
    ((baseConn (connectedChannel 1)).channel_open 1 "" =
       (Except.error ErrorKind.UnexpectedAnswer,
        (baseConn (connectedChannel 1)).set_channel_state 1 ChannelState.Error)) ∧
    (closedChannelConn.channel_flow 1 true =
       (Except.error ErrorKind.NotConnected, closedChannelConn)) :=
  ⟨((C6_issuer_guards (baseConn (connectedChannel 1)) 2 "" true).1 (by decide)).1,
   (((C6_issuer_guards (baseConn (connectedChannel 1)) 1 "" true).2
       (connectedChannel 1) (by decide)).1 (by decide)),
   (((C6_issuer_guards closedChannelConn 1 "" true).2
       { Channel.new 1 with state := ChannelState.Closed } (by decide)).2 (by decide))⟩

/-- C5: on an existing `Connected` channel, a successful `basic_publish`
returns 0 and leaves the confirm bookkeeping untouched when `confirm` is
off; when `confirm` is on it returns the current `message_count` as the
delivery tag, inserts that tag into `unacked`, and increments
`message_count` by one (with `acked` and `nacked` untouched). -/
theorem C5_basic_publish (conn : Connection) (ch : Nat) (c : Channel)
    (hc : conn.getChannel ch = some c) (hst : c.state = ChannelState.Connected)
    (ticket : Nat) (ex rk : String) (m i : Bool) :
    (c.confirm = false →
      (conn.basic_publish ch ticket ex rk m i).1 = Except.ok 0 ∧
      (((conn.basic_publish ch ticket ex rk m i).2.getChannel ch).map
        (fun c' => (c'.unacked, c'.acked, c'.nacked, c'.message_count))) =
        some (c.unacked, c.acked, c.nacked, c.message_count)) ∧
    (c.confirm = true →
      (conn.basic_publish ch ticket ex rk m i).1 = Except.ok c.message_count ∧
      (((conn.basic_publish ch ticket ex rk m i).2.getChannel ch).map
        (fun c' => (c'.unacked, c'.acked, c'.nacked, c'.message_count))) =
        some (tagInsert c.message_count c.unacked, c.acked, c.nacked,
              c.message_count + 1)) := by
  have hl : alookup conn.channels ch = some c := hc
  constructor
  · intro hconf
    simp [Connection.basic_publish, Connection.is_connected,
          Connection.send_method_frame, Connection.allocRequestId,
          Connection.getChannel, hl, hst, hconf]
  · intro hconf
    simp [Connection.basic_publish, Connection.is_connected,
          Connection.send_method_frame, Connection.allocRequestId,
          Connection.getChannel, hl, hst, hconf]

/-- C5 witness: the theorem applied on both sides of the `confirm` flag —
channel 1 of `baseConn (connectedChannel 1)` has `confirm = false`, and
channel 1 of `nackScenario` has `confirm = true` with
`message_count = 4`. -/
theorem C5_basic_publish_witness :
    (((baseConn (connectedChannel 1)).basic_publish 1 0 "e" "rk" false false).1 =
       Except.ok 0 ∧
     ((((baseConn (connectedChannel 1)).basic_publish 1 0 "e" "rk" false false).2.getChannel
         1).map (fun c' => (c'.unacked, c'.acked, c'.nacked, c'.message_count))) =
       some ([], [], [], 0)) ∧
    ((nackScenario.basic_publish 1 0 "e" "rk" false false).1 = Except.ok 4 ∧
     (((nackScenario.basic_publish 1 0 "e" "rk" false false).2.getChannel 1).map
        (fun c' => (c'.unacked, c'.acked, c'.nacked, c'.message_count))) =
       some ([2, 3, 4], [1], [], 5)) :=
  ⟨(C5_basic_publish (baseConn (connectedChannel 1)) 1 (connectedChannel 1)
      (by decide) (by decide) 0 "e" "rk" false false).1 (by decide),
   (C5_basic_publish nackScenario 1
      { connectedChannel 1 with
          awaiting := [Answer.AwaitingPublishConfirm 3, Answer.AwaitingPublishConfirm 4],
          confirm := true, message_count := 4, unacked := [2, 3], acked := [1] }
      (by decide) (by decide) 0 "e" "rk" false false).2 (by decide)⟩

/-- C7: on a `Connected` channel, when the popped head of the awaiting
queue does not match the expected `Answer` variant the handler sets the
channel state to `Error` and returns `UnexpectedAnswer`, with no effect on
the data model (queues, consumers, bindings, confirm sets, completion
maps) beyond the state transition (and the popped head) itself.  Shown for
the two cited handlers: `receive_channel_open_ok` (whose `Initial` state
check already fails on a `Connected` channel, with the same
outcome and no pop) and `receive_exchange_declare_ok`. -/
theorem C7_unexpected_answer (conn : Connection) (ch : Nat) (c : Channel)
    (hc : conn.getChannel ch = some c) (hst : c.state = ChannelState.Connected) :
    (conn.receive_channel_open_ok ch =
       (Except.error ErrorKind.UnexpectedAnswer,
        conn.set_channel_state ch ChannelState.Error)) ∧
    ((∀ r, c.awaiting.head? ≠ some (Answer.AwaitingExchangeDeclareOk r)) →
      (conn.receive_exchange_declare_ok ch).1 = Except.error ErrorKind.UnexpectedAnswer ∧
      (conn.receive_exchange_declare_ok ch).2.finished_reqs = conn.finished_reqs ∧
      (conn.receive_exchange_declare_ok ch).2.finished_get_reqs = conn.finished_get_reqs ∧
      (conn.receive_exchange_declare_ok ch).2.generated_names = conn.generated_names ∧
      (conn.receive_exchange_declare_ok ch).2.getChannel ch =
        some { c with state := ChannelState.Error, awaiting := c.awaiting.tail }) := by
  have hl : alookup conn.channels ch = some c := hc
  refine ⟨?_, ?_⟩
  · simp [Connection.receive_channel_open_ok, Connection.check_state,
          Connection.set_channel_state, hl, hst]
  · intro h
    cases haw : c.awaiting with
    | nil =>
        refine ⟨?_, ?_, ?_, ?_, ?_⟩ <;>
          simp [Connection.receive_exchange_declare_ok, Connection.is_connected,
                Connection.get_next_answer, Connection.set_channel_state,
                Connection.getChannel, hl, hst, haw]
    | cons a t =>
        have ha : ∀ r, a ≠ Answer.AwaitingExchangeDeclareOk r := by
          intro r hr
          exact h r (by simp [haw, hr])
        cases a <;>
          first
          | exact absurd rfl (ha _)
          | (refine ⟨?_, ?_, ?_, ?_, ?_⟩ <;>
              simp [Connection.receive_exchange_declare_ok, Connection.is_connected,
                    Connection.get_next_answer, Connection.set_channel_state,
                    Connection.getChannel, hl, hst, haw])

/-- C7 witness: the theorem applied at `closeFixture`, whose channel 1 is
`Connected` with awaiting head `AwaitingChannelCloseOk 7` (not an
`AwaitingExchangeDeclareOk`). -/
theorem C7_unexpected_answer_witness :
    (closeFixture.receive_channel_open_ok 1 =
       (Except.error ErrorKind.UnexpectedAnswer,
        closeFixture.set_channel_state 1 ChannelState.Error)) ∧
    ((closeFixture.receive_exchange_declare_ok 1).1 =
       Except.error ErrorKind.UnexpectedAnswer) :=
  ⟨(C7_unexpected_answer closeFixture 1
      { connectedChannel 1 with awaiting := [Answer.AwaitingChannelCloseOk 7] }
      (by decide) (by decide)).1,
   (((C7_unexpected_answer closeFixture 1
      { connectedChannel 1 with awaiting := [Answer.AwaitingChannelCloseOk 7] }
      (by decide) (by decide)).2
      (fun r hr => Answer.noConfusion (Option.some.inj hr))).1)⟩

/-- C8: round-trip — on a `Connected` channel with an empty awaiting queue,
issuing `queue_declare` with the empty queue name returns the request id
`req = next_request_id`, and then receiving `queue.declare_ok` carrying the
server-assigned name `X` succeeds, records `generated_names[req] = X`, and
inserts a `Queue` shadow under key `X` in the channel's queues map. -/
theorem C8_queue_declare_roundtrip (conn : Connection) (ch : Nat) (c : Channel)
    (hc : conn.getChannel ch = some c) (hst : c.state = ChannelState.Connected)
    (hq : c.awaiting = []) (ticket : Nat) (p d e a nw : Bool)
    (args : List (String × String)) (X : String) (mc cc : Nat) :
    (conn.queue_declare ch ticket "" p d e a nw args).1 =
      Except.ok conn.next_request_id ∧
    ((conn.queue_declare ch ticket "" p d e a nw args).2.receive_queue_declare_ok
        ch X mc cc).1 = Except.ok () ∧
    alookup ((conn.queue_declare ch ticket "" p d e a nw args).2.receive_queue_declare_ok
        ch X mc cc).2.generated_names conn.next_request_id = some X ∧
    ∃ c', ((conn.queue_declare ch ticket "" p d e a nw args).2.receive_queue_declare_ok
        ch X mc cc).2.getChannel ch = some c' ∧
      alookup c'.queues X = some (Queue.new X mc cc) := by
  have hl : alookup conn.channels ch = some c := hc
  refine ⟨?_, ?_, ?_, ?_⟩ <;>
    simp [Connection.queue_declare, Connection.receive_queue_declare_ok,
          Connection.is_connected, Connection.get_next_answer,
          Connection.push_back_answer, Connection.allocRequestId,
          Connection.send_method_frame, Connection.getChannel,
          hl, hst, hq]

/-- C8 witness: the round-trip applied at the concrete one-channel
connection, with server-assigned name "amq.gen-x". -/
theorem C8_queue_declare_roundtrip_witness :
    ((baseConn (connectedChannel 1)).queue_declare 1 0 "" false false false false false []).1 =
      Except.ok 1 ∧
    (((baseConn (connectedChannel 1)).queue_declare 1 0 "" false false false false
        false []).2.receive_queue_declare_ok 1 "amq.gen-x" 0 0).1 = Except.ok () ∧
    alookup (((baseConn (connectedChannel 1)).queue_declare 1 0 "" false false false false
        false []).2.receive_queue_declare_ok 1 "amq.gen-x" 0 0).2.generated_names 1 =
      some "amq.gen-x" ∧
    ∃ c', (((baseConn (connectedChannel 1)).queue_declare 1 0 "" false false false false
        false []).2.receive_queue_declare_ok 1 "amq.gen-x" 0 0).2.getChannel 1 = some c' ∧
      alookup c'.queues "amq.gen-x" = some (Queue.new "amq.gen-x" 0 0) :=
  C8_queue_declare_roundtrip (baseConn (connectedChannel 1)) 1 (connectedChannel 1)
    (by decide) (by decide) (by decide) 0 false false false false false [] "amq.gen-x" 0 0

theorem receiveDeliverLoop_queues (tag : String) (d : Delivery) (st : ChannelState)
    (qs : List (String × Queue)) :
    (receiveDeliverLoop tag d st qs).2 =
      qs.map (fun nq => (nq.1,
        { nq.2 with consumers :=
            (aupdate nq.2.consumers tag
              (fun cs => { cs with current_message := some d })) })) := by
  induction qs generalizing st with
  | nil => rfl
  | cons nq rest ih =>
      rcases nq with ⟨name, q⟩
      simp [receiveDeliverLoop, ih]

theorem receiveDeliverLoop_state (tag : String) (d : Delivery) (st : ChannelState)
    (qs : List (String × Queue)) (lq : String × Queue)
    (h : qs.getLast? = some lq) :
    (receiveDeliverLoop tag d st qs).1 =
      ChannelState.WillReceiveContent lq.1 (some tag) := by
  induction qs generalizing st with
  | nil => simp at h
  | cons nq rest ih =>
      rcases nq with ⟨name, q⟩
      cases rest with
      | nil =>
          simp [List.getLast?] at h
          simp [receiveDeliverLoop, ← h]
      | cons nq2 rest2 =>
          have h2 : (nq2 :: rest2).getLast? = some lq := by
            simpa [List.getLast?_cons_cons] using h
          simpa only [receiveDeliverLoop] using
            ih (ChannelState.WillReceiveContent name (some tag)) h2

/-- The channel of the C9 fixture: two queue shadows, `"a"` owning the
consumer with tag `"t"`, `"b"` (last in map iteration order) owning no
consumer. -/
def twoQueueChannel : Channel :=
  { connectedChannel 1 with queues :=
      [("a", { Queue.new "a" 0 1 with consumers :=
          [("t", Consumer.new "t" false false false false)] }),
       ("b", Queue.new "b" 0 0)] }

/-- Connection holding `twoQueueChannel`. -/
def twoQueueConn : Connection :=
  baseConn twoQueueChannel

/-- C9 (counterexample): inbound `basic.deliver` with consumer tag `"t"` on
a connected channel whose queue `"a"` owns the consumer `"t"` and whose
queue `"b"` (without any consumer) is iterated last leaves the channel in
state `WillReceiveContent("b", Some "t")` — not
`WillReceiveContent("a", Some "t")` as the claim requires, since the loop
in `receive_basic_deliver` overwrites the state with every iterated queue
name regardless of consumer ownership. -/
theorem C9_counterexample :
    (let r := twoQueueConn.receive_basic_deliver 1 "t" 7 "ex" "rk" false
     r.1 = Except.ok () ∧
     ((twoQueueConn.getChannel 1).map fun c =>
        c.queues.map (fun nq => (nq.1, (alookup nq.2.consumers "t").isSome))) =
       some [("a", true), ("b", false)] ∧
     ((r.2.getChannel 1).map fun c => c.state) =
       some (ChannelState.WillReceiveContent "b" (some "t")) ∧
     ((r.2.getChannel 1).map fun c => c.state) ≠
       some (ChannelState.WillReceiveContent "a" (some "t"))) := by
  decide

/-- C9 (amended): inbound `basic.deliver` with consumer tag `t` on an
existing `Connected` channel with at least one queue succeeds and sets the
channel state to `WillReceiveContent(q_last, Some(t))` where `q_last` is
the name of the **last queue in the channel's queue-map iteration order**
(not necessarily the queue owning the consumer); in every queue whose
consumers map holds the tag `t`, that consumer's `current_message` is set
to a fresh `Delivery` built from the method's delivery_tag, exchange,
routing_key and redelivered fields; all other fields of every queue, and
all other consumers, are unchanged. -/
theorem C9_deliver_sets_state_last_queue (conn : Connection) (ch : Nat) (c : Channel)
    (hc : conn.getChannel ch = some c) (hst : c.state = ChannelState.Connected)
    (ctag : String) (dtag : Nat) (ex rk : String) (rd : Bool)
    (lq : String × Queue) (hlast : c.queues.getLast? = some lq) :
    (conn.receive_basic_deliver ch ctag dtag ex rk rd).1 = Except.ok () ∧
    (conn.receive_basic_deliver ch ctag dtag ex rk rd).2.getChannel ch =
      some { c with
        state := ChannelState.WillReceiveContent lq.1 (some ctag),
        queues := c.queues.map (fun nq => (nq.1,
          { nq.2 with consumers :=
              (aupdate nq.2.consumers ctag
                (fun cs => { cs with current_message := (some (mkDelivery dtag ex rk rd)) })) })) } := by
  have hl : alookup conn.channels ch = some c := hc
  refine ⟨?_, ?_⟩
  · simp [Connection.receive_basic_deliver, Connection.is_connected, hl, hst]
  · simp [Connection.receive_basic_deliver, Connection.is_connected,
          Connection.getChannel, hl, hst,
          receiveDeliverLoop_queues,
          receiveDeliverLoop_state ctag (mkDelivery dtag ex rk rd)
            ChannelState.Connected c.queues lq hlast]

/-- C9 witness: the amended statement applied at the two-queue fixture. -/
theorem C9_deliver_sets_state_last_queue_witness :
    ((twoQueueConn.receive_basic_deliver 1 "t" 7 "ex" "rk" false).2.getChannel 1).map
        (fun c => c.state) =
      some (ChannelState.WillReceiveContent "b" (some "t")) := by
  have h := C9_deliver_sets_state_last_queue twoQueueConn 1 twoQueueChannel
    (by decide) (by decide) "t" 7 "ex" "rk" false ("b", Queue.new "b" 0 0) (by decide)
  rw [h.2]
  rfl

end Lapin
